import Mathlib

/-!
Verification of the zkMLTrack backend pipeline (`src/backend/app.py`).

Shallow embedding: filesystem paths are component lists, the filesystem is
explicit state, and every call into an external collaborator (the EZKL proving
toolkit, pandas/numpy data loading, solc, web3) is an opaque outcome supplied
by an oracle record, as the spec treats them ("opaque stage operations").
Machine floats are modelled as rationals; every value the claims touch is
exactly representable.
-/

/-! ## Paths and the filesystem model -/

/-- A filesystem path, as its list of components. -/
abbrev FsPath := List String

/-- Split a string at `'/'` characters (the component view of a POSIX path
    string). Implemented over the character list so that it evaluates by
    kernel reduction. -/
def splitSlashAux (cur : List Char) : List Char → List String
  | [] => [String.mk cur.reverse]
  | c :: cs =>
    if c = '/' then String.mk cur.reverse :: splitSlashAux [] cs
    else splitSlashAux (c :: cur) cs

def splitSlash (s : String) : List String := splitSlashAux [] s.data

/-- `os.path.join base s`, on components: the textual join appends the
    components of `s`. (The `os.path.join` rule that an absolute second
    argument discards the base is not modelled; no statement below involves a
    name with a leading slash.) -/
def joinPath (base : FsPath) (s : String) : FsPath := base ++ splitSlash s

/-- Resolution of `..`, `.` and empty components as the OS kernel performs it
    when a path is opened or stat-ed (`open`, `os.path.isfile`). A `..` above
    the process working directory is not modelled (never reached below). -/
def resolveComponents (acc : FsPath) : List String → FsPath
  | [] => acc
  | c :: cs =>
    if c = ".." then resolveComponents acc.dropLast cs
    else if c = "." ∨ c = "" then resolveComponents acc cs
    else resolveComponents (acc ++ [c]) cs

/-- `APP_ROOT` (app.py line 19): the artifacts root directory, default
    `./artifacts`, as a path relative to the working directory. -/
def APP_ROOT : FsPath := ["artifacts"]

/-- Filesystem state: the existing directories and the file contents (bytes as
    a list of naturals). -/
structure FS where
  dirs : List FsPath
  files : FsPath → Option (List Nat)

/-- Add one directory if absent. -/
def insertDir (ds : List FsPath) (p : FsPath) : List FsPath :=
  if p ∈ ds then ds else ds ++ [p]

/-- `os.makedirs(path, exist_ok=True)` (`ensure_dir`, app.py 34-36): creates
    the directory and all missing ancestors; an existing directory is not an
    error and nothing is removed. -/
def ensure_dir (ds : List FsPath) (p : FsPath) : List FsPath :=
  (p.inits.filter (fun q => q ≠ [])).foldl insertDir ds

/-- The artifact-role → path mapping returned by `task_paths`
    (app.py 39-58). -/
def task_paths_map (task_id : String) : List (String × FsPath) :=
  let base := joinPath APP_ROOT task_id
  [("base", base),
   ("model", base ++ ["network.onnx"]),
   ("settings", base ++ ["settings.json"]),
   ("calibration", base ++ ["calibration.json"]),
   ("compiled", base ++ ["network.ezkl"]),
   ("srs", base ++ ["kzg.srs"]),
   ("witness", base ++ ["witness.json"]),
   ("input", base ++ ["input.json"]),
   ("pk", base ++ ["test.pk"]),
   ("vk", base ++ ["test.vk"]),
   ("proof", base ++ ["test.pf"]),
   ("status", base ++ ["status.json"]),
   ("verifier_sol", base ++ ["Verifier.sol"]),
   ("verifier_abi", base ++ ["Verifier.abi"])]

/-- `task_paths` (app.py 39-58): `ensure_dir` on the task base directory, then
    the role → path mapping. -/
def task_paths (fs : FS) (task_id : String) : FS × List (String × FsPath) :=
  ({ fs with dirs := ensure_dir fs.dirs (joinPath APP_ROOT task_id) },
   task_paths_map task_id)

/-- `paths[role]` on the returned mapping. -/
def rolePath (paths : List (String × FsPath)) (role : String) : FsPath :=
  (paths.lookup role).getD []

/-- Response of the status route: 404 or the status file's content. -/
inductive StatusResponse
  | notFound
  | found (content : List Nat)
deriving DecidableEq

/-- `GET /models/<task_id>/status` (`get_status`, app.py 437-444): resolve the
    task paths (which runs `ensure_dir`), 404 if the status file does not
    exist, else return its content. -/
def get_status (fs : FS) (task_id : String) : FS × StatusResponse :=
  let st := task_paths fs task_id
  match st.1.files (resolveComponents [] (rolePath st.2 "status")) with
  | none => (st.1, .notFound)
  | some d => (st.1, .found d)

/-- `GET /models/<task_id>/artifacts/<artifact>` (`get_artifact`,
    app.py 447-455): join the artifact name under the task base directory and
    serve the bytes of the file there if it exists; the joined path is used
    as-is, with no containment check. -/
def get_artifact (fs : FS) (task_id artifact : String) : FS × Option (List Nat) :=
  let st := task_paths fs task_id
  let candidate := joinPath (rolePath st.2 "base") artifact
  match st.1.files (resolveComponents [] candidate) with
  | none => (st.1, none)
  | some d => (st.1, some d)

/-- `p` lies strictly inside the directory `base`. -/
def strictlyWithin (base p : FsPath) : Bool := base.isPrefixOf p && p != base

/-! ## Numeric helpers, labels and prediction extraction -/

/-- Python `round` to an integer: round half to even. -/
def pyRound (q : ℚ) : ℤ :=
  let f : ℤ := ⌊q⌋
  if 2 * (q - f) < 1 then f
  else if 1 < 2 * (q - f) then f + 1
  else if f % 2 = 0 then f else f + 1

/-- `int(round((accuracy or 0.0) * 1_000_000))` (app.py line 253).
    `accuracy or 0.0` replaces a falsy value (`None` or `0.0`) by `0.0`;
    `int` on the integral result of `round` is the identity. -/
def accuracy_scaled (accuracy : Option ℚ) : ℤ :=
  pyRound ((match accuracy with
            | none => (0 : ℚ)
            | some a => if a = 0 then 0 else a) * 1000000)

/-- Python truthiness of an optional string (`None` and `""` are falsy). -/
def truthy : Option String → Bool
  | none => false
  | some s => s != ""

/-- Code-point lexicographic order on character lists (Python string
    comparison), written to evaluate by kernel reduction. -/
def strLeList : List Char → List Char → Bool
  | [], _ => true
  | _ :: _, [] => false
  | a :: as, b :: bs =>
    if a.val < b.val then true
    else if b.val < a.val then false
    else strLeList as bs

def strLe (a b : String) : Bool := strLeList a.data b.data

def insertSorted (x : String) : List String → List String
  | [] => [x]
  | y :: ys => if strLe x y then x :: y :: ys else y :: insertSorted x ys

/-- Python `sorted` on strings (insertion sort; the result only depends on the
    multiset, so the sorting algorithm is immaterial). -/
def sortStrings : List String → List String
  | [] => []
  | x :: xs => insertSorted x (sortStrings xs)

/-- `build_label_index_map` (app.py 81-84): sort the distinct labels of the
    label column and map each to its position. `List.eraseDups` keeps first
    occurrences like `pandas.unique`; the subsequent sort only sees the set. -/
def build_label_index_map (labels : List String) : List (String × Nat) :=
  ((sortStrings labels.eraseDups).enum).map (fun p => (p.2, p.1))

/-- The accuracy derivation of app.py 368-371: defined only when both the
    target index and the predicted index are present; 1.0 on match, 0.0
    otherwise. -/
def computeAccuracy (target_index predicted_index : Option Nat) : Option ℚ :=
  match target_index, predicted_index with
  | some t, some p => some (if p = t then (1 : ℚ) else 0)
  | _, _ => none

structure Prediction where
  scores : List ℚ
  predicted_index : Option Nat
deriving DecidableEq

/-- The `pretty_elements` object of a witness file. -/
structure PrettyElements where
  rescaled_outputs : Option (List (List ℚ))
deriving DecidableEq

/-- A witness file's payload, restricted to the fields `extract_prediction`
    reads. -/
structure WitnessPayload where
  pretty_elements : Option PrettyElements
deriving DecidableEq

/-- `np.argmax` scan: first index of the maximum, given the best seen so far. -/
def argmaxFrom (bi : Nat) (bv : ℚ) (i : Nat) : List ℚ → Nat
  | [] => bi
  | y :: ys => if bv < y then argmaxFrom i y (i + 1) ys else argmaxFrom bi bv (i + 1) ys

/-- `extract_prediction` (app.py 207-216): a missing `pretty_elements`, missing
    `rescaled_outputs`, or empty list (all falsy) yields empty scores and no
    index. Otherwise the first output row becomes the scores (the `float`
    conversion of the numeric strings is modelled as the identity on ℚ) and
    `np.argmax` gives the predicted index; numpy raises on an empty row. -/
def extract_prediction (payload : WitnessPayload) : Except String Prediction :=
  let outputs := match payload.pretty_elements with
                 | none => none
                 | some pe => pe.rescaled_outputs
  match outputs with
  | none => .ok { scores := [], predicted_index := none }
  | some [] => .ok { scores := [], predicted_index := none }
  | some (first :: _) =>
    match first with
    | [] => .error "attempt to get argmax of an empty sequence"
    | x :: xs => .ok { scores := first, predicted_index := some (argmaxFrom 0 x 1 xs) }

/-- The validation dataframe: rows of (feature vector, label). -/
structure Dataset where
  rows : List (List ℚ × String)
deriving DecidableEq

def dataset_labels (d : Dataset) : List String := d.rows.map (fun r => r.2)

/-- `pick_validation_sample` (app.py 73-78): one random row; the random draw is
    an oracle-supplied index reduced modulo the row count. `df.sample(n=1)`
    raises on an empty frame. -/
def pick_validation_sample (d : Dataset) (i : Nat) : Except String (List ℚ × String) :=
  match d.rows with
  | [] => .error "a must be greater than 0 unless no samples are taken"
  | r :: rs => .ok ((r :: rs).getD (i % (r :: rs).length) r)

/-! ## Pipeline trace model -/

/-- A status-ledger entry (`update_status`, app.py 109-117); the UTC timestamp
    is abstracted away, no claim concerns it. -/
structure StatusRecord where
  step : String
  message : String
  error : Option String
deriving DecidableEq

/-- A durable effect of a run: a status write, or the creation of a stage
    artifact file identified by its role. -/
inductive Event
  | status (rec : StatusRecord)
  | artifact (role : String)
deriving DecidableEq

/-- An ordinary stage-transition status write (no error field). -/
def stEv (step message : String) : Event := .status ⟨step, message, none⟩

/-- Process-wide chain configuration read from the environment (app.py 22-27);
    `none` models an unset variable. -/
structure Config where
  GENERAL_CONTRACT_ADDRESS : Option String
  WEB3_HTTP_PROVIDER : Option String
  WEB3_OPERATOR_KEY : Option String
deriving DecidableEq

/-- A field element in ezkl's opaque textual form. -/
abbrev Felt := String

/-- `ezkl.felt_to_big_endian`: an external pure conversion, modelled as the
    identity on the opaque textual form. -/
def felt_to_big_endian (f : Felt) : String := f

/-- The proof payload, restricted to the fields the pipeline reads. -/
structure ProofPayload where
  instances : List (List Felt)
  proof : Option String
deriving DecidableEq

structure PubInputs where
  list : List String
  pretty : String
deriving DecidableEq

/-- `format_pub_inputs` (app.py 120-128). -/
def format_pub_inputs (proof_payload : ProofPayload) : PubInputs :=
  let formatted := (proof_payload.instances.map (fun inst => inst.map felt_to_big_endian)).flatten
  { list := formatted
    pretty := "[" ++ String.intercalate ", " (formatted.map (fun v => "\"" ++ v ++ "\"")) ++ "]" }

structure Deployment where
  address : String
  tx_hash : String
deriving DecidableEq

/-- Outcomes of the external operations one run invokes: the EZKL toolkit
    calls, dataset loading, the random sample draw, and the chain
    interactions. Each is an opaque success/failure carrying the data the
    pipeline consumes. -/
structure Oracle where
  storeModel : Except String Unit
  loadValidation : Except String Dataset
  sampleIdx : Nat
  genSettings : Except String Unit
  calibrateSettings : Except String Unit
  compileCircuit : Except String Unit
  getSrs : Except String Unit
  genWitness : Except String Unit
  witnessPayload : WitnessPayload
  setup : Except String Unit
  prove : Except String ProofPayload
  verify : Except String Bool
  createEvmVerifier : Except String Unit
  deployVerifier : Except String Deployment
  registerAbi : Except String Unit
  registerTx : Except String String

/-- `deploy_verifier_contract` (app.py 160-204): returns `None` when the chain
    endpoint or the operator key is unset (or empty); otherwise the
    source/ABI file checks, solc compilation, signing, broadcast and receipt
    wait are the single external outcome `o.deployVerifier` (a non-success
    receipt status is an error, app.py 198-199). -/
def deploy_verifier_contract (cfg : Config) (o : Oracle) : Except String (Option Deployment) :=
  if truthy cfg.WEB3_HTTP_PROVIDER && truthy cfg.WEB3_OPERATOR_KEY then
    match o.deployVerifier with
    | .ok d => .ok (some d)
    | .error e => .error e
  else .ok none

/-- `register_model_onchain` (app.py 219-284): returns `None` when the
    registry address, endpoint, key or verifier address is unset or falsy
    (app.py 227); then the registry ABI load (`o.registerAbi`, app.py
    235-238), the check that the proof payload has a `proof` field (app.py
    245-247), the accuracy scaling of line 253, and the remaining chain
    interaction — function resolution, build, sign, broadcast, receipt —
    as `o.registerTx`. The model-file hash (app.py 241-243) and the proof
    byte encoding only feed the transaction and are folded into
    `o.registerTx`. -/
def register_model_onchain (cfg : Config) (o : Oracle) (task_id : String)
    (proof_payload : ProofPayload) (verifier_address : Option String)
    (accuracy : Option ℚ) : Except String (Option String) :=
  if truthy cfg.GENERAL_CONTRACT_ADDRESS && truthy cfg.WEB3_HTTP_PROVIDER &&
      truthy cfg.WEB3_OPERATOR_KEY && truthy verifier_address then
    match o.registerAbi with
    | .error e => .error e
    | .ok _ =>
      match proof_payload.proof with
      | none => .error "Proof payload missing 'proof' field"
      | some _ =>
        let _scaled := accuracy_scaled accuracy
        match o.registerTx with
        | .error e => .error e
        | .ok tx => .ok (some tx)
  else .ok none

/-- The summary dictionary a successful run returns (app.py 382-393). -/
structure RunResult where
  task_id : String
  artifacts : List (String × FsPath)
  pub_inputs : PubInputs
  prediction : Prediction
  verification : Bool
  accuracy : Option ℚ
  verifier_contract : Option String
  verifier_deploy_tx : Option String
  tx_hash : Option String
deriving DecidableEq

/-- The guard of the deployment block (app.py 359): chain endpoint and
    operator key both configured and non-empty. -/
def deployHappens (cfg : Config) : Bool :=
  truthy cfg.WEB3_HTTP_PROVIDER && truthy cfg.WEB3_OPERATOR_KEY

/-- The tail of `run_pipeline_async` after the deployment block
    (app.py 366-393): public-input formatting, prediction extraction from the
    witness file, accuracy, the registration stage or its skip message, the
    final `complete` status, and the summary. -/
def pipeline_tail (tid : String) (cfg : Config) (o : Oracle) (ev : List Event)
    (target_index : Option Nat) (proof : ProofPayload) (verification : Bool)
    (verifier_address verifier_deploy_tx : Option String) :
    List Event × Except String RunResult :=
  let pub_inputs := format_pub_inputs proof
  match extract_prediction o.witnessPayload with
  | .error e => (ev, .error e)
  | .ok prediction =>
    let accuracy := computeAccuracy target_index prediction.predicted_index
    if truthy verifier_address then
      let ev := ev ++ [stEv "register" "Registering model on-chain"]
      match register_model_onchain cfg o tid proof verifier_address accuracy with
      | .error e => (ev, .error e)
      | .ok tx_hash =>
        (ev ++ [stEv "complete" "Pipeline finished"],
         .ok { task_id := tid, artifacts := task_paths_map tid,
               pub_inputs := pub_inputs, prediction := prediction,
               verification := verification, accuracy := accuracy,
               verifier_contract := verifier_address,
               verifier_deploy_tx := verifier_deploy_tx, tx_hash := tx_hash })
    else
      let ev := ev ++ [stEv "register" "Skipping on-chain registration (no verifier deployment)"]
      (ev ++ [stEv "complete" "Pipeline finished"],
       .ok { task_id := tid, artifacts := task_paths_map tid,
             pub_inputs := pub_inputs, prediction := prediction,
             verification := verification, accuracy := accuracy,
             verifier_contract := verifier_address,
             verifier_deploy_tx := verifier_deploy_tx, tx_hash := none })

/-- `run_pipeline_async` (app.py 289-393), as the list of durable events
    (status writes and artifact creations, in program order) paired with the
    returned summary or the first raised error message. An error in any stage
    operation propagates immediately: nothing after it runs. The re-read of
    the proof file when `ezkl.prove` does not return a dict (app.py 341-343)
    is folded into `o.prove`. -/
def run_pipeline_async (tid : String) (cfg : Config) (o : Oracle) :
    List Event × Except String RunResult :=
  let ev := [stEv "started" "Storing model"]
  match o.storeModel with
  | .error e => (ev, .error e)
  | .ok _ =>
  let ev := ev ++ [Event.artifact "model", stEv "input" "Preparing validation input"]
  match o.loadValidation with
  | .error e => (ev, .error e)
  | .ok validation_df =>
  let label_index_map := build_label_index_map (dataset_labels validation_df)
  match pick_validation_sample validation_df o.sampleIdx with
  | .error e => (ev, .error e)
  | .ok sample =>
  let target_index := label_index_map.lookup sample.2
  let ev := ev ++ [Event.artifact "input", stEv "settings" "Generating settings"]
  match o.genSettings with
  | .error e => (ev, .error e)
  | .ok _ =>
  let ev := ev ++ [Event.artifact "settings",
                   stEv "calibration" "Building calibration set",
                   Event.artifact "calibration",
                   stEv "calibration" "Running ezkl.calibrate_settings"]
  match o.calibrateSettings with
  | .error e => (ev, .error e)
  | .ok _ =>
  let ev := ev ++ [stEv "compile" "Compiling circuit"]
  match o.compileCircuit with
  | .error e => (ev, .error e)
  | .ok _ =>
  let ev := ev ++ [Event.artifact "compiled", stEv "srs" "Fetching SRS"]
  match o.getSrs with
  | .error e => (ev, .error e)
  | .ok _ =>
  let ev := ev ++ [Event.artifact "srs", stEv "witness" "Generating witness"]
  match o.genWitness with
  | .error e => (ev, .error e)
  | .ok _ =>
  let ev := ev ++ [Event.artifact "witness", stEv "setup" "Running setup"]
  match o.setup with
  | .error e => (ev, .error e)
  | .ok _ =>
  let ev := ev ++ [Event.artifact "vk", Event.artifact "pk",
                   stEv "prove" "Generating proof"]
  match o.prove with
  | .error e => (ev, .error e)
  | .ok proof =>
  let ev := ev ++ [Event.artifact "proof", stEv "verify" "Verifying proof"]
  match o.verify with
  | .error e => (ev, .error e)
  | .ok verification =>
  let ev := ev ++ [stEv "verifier" "Exporting EVM verifier"]
  match o.createEvmVerifier with
  | .error e => (ev, .error e)
  | .ok _ =>
  let ev := ev ++ [Event.artifact "verifier_sol", Event.artifact "verifier_abi"]
  if deployHappens cfg then
    let ev := ev ++ [stEv "verifier_deploy" "Deploying verifier contract"]
    match deploy_verifier_contract cfg o with
    | .error e => (ev, .error e)
    | .ok (some d) =>
      pipeline_tail tid cfg o ev target_index proof verification
        (some d.address) (some d.tx_hash)
    | .ok none =>
      pipeline_tail tid cfg o ev target_index proof verification none none
  else
    pipeline_tail tid cfg o ev target_index proof verification none none

/-- Response behaviour of the `POST /models` handler, given valid form inputs
    (`post_model`, app.py 417-434). -/
inductive HttpOutcome
  | created (r : RunResult)
  | errorResponse (msg : String)
  | raised (msg : String)
deriving DecidableEq

/-- `post_model` (app.py 417-434), after input validation: run the pipeline;
    on success answer 201 with the summary; on an exception, write the
    `failed` status (`update_status`, whose own outcome is `statusWrite`) and
    answer 500 with the error text. If the status write itself raises, that
    exception replaces the original one and escapes the handler. -/
def post_model (tid : String) (cfg : Config) (o : Oracle)
    (statusWrite : Except String Unit) : List Event × HttpOutcome :=
  match run_pipeline_async tid cfg o with
  | (evs, .ok r) => (evs, .created r)
  | (evs, .error m) =>
    match statusWrite with
    | .ok _ => (evs ++ [Event.status ⟨"failed", "Pipeline error", some m⟩], .errorResponse m)
    | .error d => (evs, .raised d)

/-! ## The event trace and summary of a fully successful run -/

/-- The events every successful run records before the deployment block. -/
def okStagePart : List Event :=
  [stEv "started" "Storing model", Event.artifact "model",
   stEv "input" "Preparing validation input", Event.artifact "input",
   stEv "settings" "Generating settings", Event.artifact "settings",
   stEv "calibration" "Building calibration set", Event.artifact "calibration",
   stEv "calibration" "Running ezkl.calibrate_settings",
   stEv "compile" "Compiling circuit", Event.artifact "compiled",
   stEv "srs" "Fetching SRS", Event.artifact "srs",
   stEv "witness" "Generating witness", Event.artifact "witness",
   stEv "setup" "Running setup", Event.artifact "vk", Event.artifact "pk",
   stEv "prove" "Generating proof", Event.artifact "proof",
   stEv "verify" "Verifying proof",
   stEv "verifier" "Exporting EVM verifier",
   Event.artifact "verifier_sol", Event.artifact "verifier_abi"]

/-- The verifier contract address of a successful run. -/
def okAddress (cfg : Config) (o : Oracle) : Option String :=
  if deployHappens cfg then
    match o.deployVerifier with
    | .ok d => some d.address
    | .error _ => none
  else none

/-- The deployment transaction hash of a successful run. -/
def okDeployTx (cfg : Config) (o : Oracle) : Option String :=
  if deployHappens cfg then
    match o.deployVerifier with
    | .ok d => some d.tx_hash
    | .error _ => none
  else none

/-- The status events of the deployment block of a successful run. -/
def deployPart (cfg : Config) : List Event :=
  if deployHappens cfg then [stEv "verifier_deploy" "Deploying verifier contract"] else []

/-- The events `pipeline_tail` appends after `ev`: the registration stage's
    status or its skip message, then the final `complete` status. -/
def tailEvents (ev : List Event) (va : Option String) : List Event :=
  (ev ++ (if truthy va then [stEv "register" "Registering model on-chain"]
          else [stEv "register" "Skipping on-chain registration (no verifier deployment)"])) ++
    [stEv "complete" "Pipeline finished"]

/-- The registration transaction hash a successful `pipeline_tail` stores,
    given the verifier address `va`. -/
def tailTxHash (cfg : Config) (o : Oracle) (va : Option String) : Option String :=
  if truthy va then
    if truthy cfg.GENERAL_CONTRACT_ADDRESS && truthy cfg.WEB3_HTTP_PROVIDER &&
        truthy cfg.WEB3_OPERATOR_KEY && truthy va then
      match o.registerTx with
      | .ok tx => some tx
      | .error _ => none
    else none
  else none

/-- The full event trace of a successful run. -/
def okEvents (cfg : Config) (o : Oracle) : List Event :=
  tailEvents (okStagePart ++ deployPart cfg) (okAddress cfg o)

/-- The registration transaction hash of a successful run. -/
def okTxHash (cfg : Config) (o : Oracle) : Option String :=
  tailTxHash cfg o (okAddress cfg o)

theorem truthy_none : truthy none = false := rfl

/-- Shape of a successful `pipeline_tail`: the appended events and the
    chain-related summary fields. -/
theorem pipeline_tail_ok_shape (tid : String) (cfg : Config) (o : Oracle)
    (ev : List Event) (ti : Option Nat) (proof : ProofPayload) (vf : Bool)
    (va dtx : Option String) (evs : List Event) (r : RunResult)
    (h : pipeline_tail tid cfg o ev ti proof vf va dtx = (evs, .ok r)) :
    evs = tailEvents ev va ∧ r.verifier_contract = va ∧
    r.verifier_deploy_tx = dtx ∧ r.tx_hash = tailTxHash cfg o va := by
  unfold pipeline_tail register_model_onchain at h
  repeat' (first
    | simp only [Prod.mk.injEq, reduceCtorEq, false_and, and_false, Except.ok.injEq] at h
    | split at h)
  all_goals
    obtain ⟨hev, hr⟩ := h
  all_goals
    subst hev hr
  all_goals
    by_cases hga : truthy cfg.GENERAL_CONTRACT_ADDRESS = true <;>
    by_cases hwp : truthy cfg.WEB3_HTTP_PROVIDER = true <;>
    by_cases hok : truthy cfg.WEB3_OPERATOR_KEY = true <;>
    cases hra : o.registerAbi <;>
    cases hrt : o.registerTx <;>
    cases hpp : proof.proof <;>
    simp_all [tailEvents, tailTxHash, Bool.and_eq_true]

/-- Shape of a successful run: its trace is `okEvents` and the chain-related
    summary fields are the `ok*` values. -/
theorem run_ok_shape (tid : String) (cfg : Config) (o : Oracle) (evs : List Event)
    (r : RunResult) (h : run_pipeline_async tid cfg o = (evs, .ok r)) :
    evs = okEvents cfg o ∧ r.verifier_contract = okAddress cfg o ∧
    r.verifier_deploy_tx = okDeployTx cfg o ∧ r.tx_hash = okTxHash cfg o := by
  unfold run_pipeline_async deploy_verifier_contract at h
  repeat' (first
    | simp only [Prod.mk.injEq, reduceCtorEq, false_and, and_false, Except.ok.injEq] at h
    | split at h)
  all_goals
    obtain ⟨hev, hvc, hdt, htx⟩ := pipeline_tail_ok_shape _ _ _ _ _ _ _ _ _ _ _ h
  all_goals
    subst hev
  all_goals
    by_cases hwp : truthy cfg.WEB3_HTTP_PROVIDER = true <;>
    by_cases hok : truthy cfg.WEB3_OPERATOR_KEY = true <;>
    cases hdv : o.deployVerifier <;>
      simp_all [okEvents, okStagePart, okAddress, okDeployTx, okTxHash, deployPart,
        deployHappens, deploy_verifier_contract, Bool.and_eq_true]

/-! ## Directory-creation lemmas -/

theorem mem_insertDir (x p : FsPath) (ds : List FsPath) (h : x ∈ ds) :
    x ∈ insertDir ds p := by
  unfold insertDir
  split
  · exact h
  · exact List.mem_append_left _ h

theorem insertDir_self (p : FsPath) (ds : List FsPath) : p ∈ insertDir ds p := by
  unfold insertDir
  split
  · assumption
  · exact List.mem_append_right _ (List.mem_singleton.mpr rfl)

theorem mem_foldl_insertDir (x : FsPath) (l ds : List FsPath) (h : x ∈ ds) :
    x ∈ l.foldl insertDir ds := by
  induction l generalizing ds with
  | nil => exact h
  | cons a as ih => exact ih _ (mem_insertDir _ _ _ h)

theorem mem_foldl_insertDir_of_mem (x : FsPath) (l ds : List FsPath) (h : x ∈ l) :
    x ∈ l.foldl insertDir ds := by
  induction l generalizing ds with
  | nil => cases h
  | cons a as ih =>
    rcases List.mem_cons.mp h with rfl | hx
    · exact mem_foldl_insertDir x as (insertDir ds x) (insertDir_self x ds)
    · exact ih _ hx

theorem insertDir_of_mem (p : FsPath) (ds : List FsPath) (h : p ∈ ds) :
    insertDir ds p = ds := by
  unfold insertDir
  simp [h]

theorem foldl_insertDir_of_subset (l ds : List FsPath) (h : ∀ x ∈ l, x ∈ ds) :
    l.foldl insertDir ds = ds := by
  induction l with
  | nil => rfl
  | cons a as ih =>
    rw [List.foldl_cons, insertDir_of_mem a ds (h a (List.mem_cons_self a as))]
    exact ih (fun x hx => h x (List.mem_cons_of_mem a hx))

/-- Every directory present before `ensure_dir` is still present after. -/
theorem ensure_dir_mono (ds : List FsPath) (p : FsPath) : ∀ x ∈ ds, x ∈ ensure_dir ds p :=
  fun x hx => mem_foldl_insertDir x _ ds hx

/-- `ensure_dir` creates the directory itself (for a non-empty path). -/
theorem ensure_dir_self (ds : List FsPath) (p : FsPath) (hp : p ≠ []) :
    p ∈ ensure_dir ds p := by
  apply mem_foldl_insertDir_of_mem
  simp only [List.mem_filter, decide_eq_true_eq]
  exact ⟨(List.mem_inits p p).mpr List.prefix_rfl, hp⟩

/-- Running `ensure_dir` twice is the same as running it once. -/
theorem ensure_dir_idem (ds : List FsPath) (p : FsPath) :
    ensure_dir (ensure_dir ds p) p = ensure_dir ds p :=
  foldl_insertDir_of_subset _ _ (fun x hx => mem_foldl_insertDir_of_mem x _ ds hx)

/-! ## Concrete example values -/

/-- No chain configuration at all. -/
def cfgNoChain : Config :=
  { GENERAL_CONTRACT_ADDRESS := none, WEB3_HTTP_PROVIDER := none, WEB3_OPERATOR_KEY := none }

/-- Registry address and operator key configured, but no chain endpoint. -/
def cfgNoProviderEx : Config :=
  { GENERAL_CONTRACT_ADDRESS := some "0xregistry", WEB3_HTTP_PROVIDER := none,
    WEB3_OPERATOR_KEY := some "0xkey" }

/-- An oracle on which every external operation succeeds. The validation set
    has labels {"A","B"}; the sampled row (index 0) is labelled "B"; the
    witness outputs favour index 1. -/
def oracleOkEx : Oracle :=
  { storeModel := .ok ()
    loadValidation := .ok ⟨[([5, 1], "B"), ([4, 2], "A")]⟩
    sampleIdx := 0
    genSettings := .ok ()
    calibrateSettings := .ok ()
    compileCircuit := .ok ()
    getSrs := .ok ()
    genWitness := .ok ()
    witnessPayload := ⟨some ⟨some [[0, 1]]⟩⟩
    setup := .ok ()
    prove := .ok ⟨[["7"]], some "0xproof"⟩
    verify := .ok true
    createEvmVerifier := .ok ()
    deployVerifier := .ok ⟨"0xverifier", "0xdeploytx"⟩
    registerAbi := .ok ()
    registerTx := .ok "0xregtx" }

/-- Like `oracleOkEx` but the validation CSV is missing, so the
    `prepare-input` stage raises. -/
def oracleFailEx : Oracle :=
  { oracleOkEx with
    loadValidation := .error "Validation CSV not found at iris_test_split.csv" }

/-- A filesystem holding one secret file inside task `t2`'s directory. -/
def fsTravEx : FS :=
  { dirs := [["artifacts"], ["artifacts", "t1"], ["artifacts", "t2"]]
    files := fun p => if p = ["artifacts", "t2", "secret.bin"] then some [42, 7] else none }

/-- An empty filesystem. -/
def fsEmptyEx : FS := { dirs := [], files := fun _ => none }

/-- No status event of the trace belongs to the `verifier_deploy` stage. -/
def noDeployStatus (evs : List Event) : Bool :=
  evs.all fun e =>
    match e with
    | .status rec => rec.step != "verifier_deploy"
    | .artifact _ => true

/-! ## Claim theorems -/

/-- C1: the claim asserts that the artifact fetch serves a file's bytes only
    when the resolved file lies strictly within the task's base directory, and
    that an escaping artifact name is rejected. `get_artifact`
    (app.py 447-455) performs no containment check on the joined path: with
    task `t1` and artifact name `../t2/secret.bin` it serves the bytes of a
    file that resolves outside `t1`'s base directory. -/
theorem c1_traversal_served :
    (get_artifact fsTravEx "t1" "../t2/secret.bin").2 = some [42, 7] ∧
    resolveComponents [] (joinPath (joinPath APP_ROOT "t1") "../t2/secret.bin") =
      ["artifacts", "t2", "secret.bin"] ∧
    strictlyWithin (joinPath APP_ROOT "t1") ["artifacts", "t2", "secret.bin"] = false :=
  ⟨by decide, by decide, by decide⟩

/-- C2 counterexample: the code does not clamp an out-of-range accuracy to 0
    before scaling — `accuracy or 0.0` only replaces falsy values, so 2.0
    scales to 2,000,000, refuting "for every absent or out-of-range accuracy
    value the scaled result is 0". -/
theorem c2_out_of_range_scales :
    accuracy_scaled (some 2) = 2000000 ∧ accuracy_scaled (some 2) ≠ 0 := by
  have h : accuracy_scaled (some 2) = 2000000 := by
    unfold accuracy_scaled pyRound
    norm_num
  exact ⟨h, by rw [h]; decide⟩

/-- C2 (amended): an accuracy of exactly 1.0 scales to exactly 1,000,000, an
    accuracy of exactly 0.0 scales to exactly 0, and an absent accuracy
    defaults to 0 before scaling. Out-of-range values are scaled unclamped,
    but the pipeline's accuracy derivation only ever produces an absent value,
    0.0 or 1.0. -/
theorem c2_accuracy_scaling :
    accuracy_scaled (some 1) = 1000000 ∧ accuracy_scaled (some 0) = 0 ∧
    accuracy_scaled none = 0 ∧
    ∀ t p : Option Nat, computeAccuracy t p = none ∨ computeAccuracy t p = some 0 ∨
      computeAccuracy t p = some 1 := by
  refine ⟨?_, ?_, ?_, ?_⟩
  · unfold accuracy_scaled pyRound
    norm_num
  · unfold accuracy_scaled pyRound
    norm_num
  · unfold accuracy_scaled pyRound
    norm_num
  · intro t p
    unfold computeAccuracy
    rcases t with _ | t <;> rcases p with _ | p <;> simp
    by_cases hpt : p = t <;> simp [hpt]

/-- A validation dataset with labels {"A","B"}, appearing in the order
    B, A, B. -/
def datasetABEx : Dataset := ⟨[([1, 2], "B"), ([3, 4], "A"), ([5, 6], "B")]⟩

/-- C9: `build_label_index_map` is a pure function of the dataset (repeated
    constructions coincide definitionally); on a dataset with distinct labels
    {"A","B"} it yields the sorted assignment A ↦ 0, B ↦ 1, and for a sampled
    row labelled "B" the run's accuracy is 1.0 when the witness predicts
    index 1 and 0.0 when it predicts index 0. -/
theorem c9_label_map_scenario :
    build_label_index_map (dataset_labels datasetABEx) = [("A", 0), ("B", 1)] ∧
    (build_label_index_map (dataset_labels datasetABEx)).lookup "B" = some 1 ∧
    computeAccuracy ((build_label_index_map (dataset_labels datasetABEx)).lookup "B")
      (some 1) = some 1 ∧
    computeAccuracy ((build_label_index_map (dataset_labels datasetABEx)).lookup "B")
      (some 0) = some 0 :=
  ⟨by decide, by decide, rfl, rfl⟩

/-- The witness payload has no non-empty `rescaled_outputs` entry: the
    `pretty_elements` object or its `rescaled_outputs` field is missing, or
    the list is empty — exactly the falsy cases of `if not outputs`
    (app.py 212). -/
def lacksOutputs (wp : WitnessPayload) : Bool :=
  match wp.pretty_elements with
  | none => true
  | some pe =>
    match pe.rescaled_outputs with
    | none => true
    | some l => l.isEmpty

/-- C10: for every witness payload lacking a non-empty rescaled-outputs
    entry, `extract_prediction` returns empty scores and no predicted index
    without failing, and the accuracy derived from an absent predicted index
    is absent for every target index. -/
theorem c10_no_outputs (wp : WitnessPayload) (h : lacksOutputs wp = true) :
    extract_prediction wp = .ok { scores := [], predicted_index := none } ∧
    ∀ t : Option Nat, computeAccuracy t none = none := by
  constructor
  · rcases wp with ⟨pe⟩
    rcases pe with _ | pe
    · rfl
    · rcases pe with ⟨ro⟩
      rcases ro with _ | ro
      · rfl
      · rcases ro with _ | ⟨first, rest⟩
        · rfl
        · simp [lacksOutputs] at h
  · intro t
    rcases t with _ | t <;> rfl

/-- Witness for C10 at the payload with no `pretty_elements` at all. -/
theorem c10_no_outputs_witness :
    extract_prediction ⟨none⟩ = .ok { scores := [], predicted_index := none } ∧
    ∀ t : Option Nat, computeAccuracy t none = none :=
  c10_no_outputs ⟨none⟩ rfl

/-- The summary of a fully successful run without chain deployment: no
    verifier contract, no transaction hashes; the sampled row (label "B",
    index 1) matches the witness argmax, so accuracy is 1.0. -/
def resC5Ex : RunResult :=
  { task_id := "t1"
    artifacts := task_paths_map "t1"
    pub_inputs := { list := ["7"], pretty := "[\"7\"]" }
    prediction := { scores := [0, 1], predicted_index := some 1 }
    verification := true
    accuracy := some 1
    verifier_contract := none
    verifier_deploy_tx := none
    tx_hash := none }

/-- C4: the claim says an I/O failure while writing the `failed` status must
    not mask the primary stage error. In `post_model` (app.py 427-432) the
    `update_status` call sits inside the except block with no protection: when
    it raises, its exception replaces the original one and escapes the
    handler, so the caller sees the status-write error instead of the stage
    error. Evaluated at a failing input: stage error "Validation CSV not
    found …", status-write error "disk full". -/
theorem c4_secondary_error_masks :
    (run_pipeline_async "t1" cfgNoChain oracleFailEx).2 =
      .error "Validation CSV not found at iris_test_split.csv" ∧
    post_model "t1" cfgNoChain oracleFailEx (.error "disk full") =
      ((run_pipeline_async "t1" cfgNoChain oracleFailEx).1, .raised "disk full") ∧
    (HttpOutcome.raised "disk full" ≠
      HttpOutcome.errorResponse "Validation CSV not found at iris_test_split.csv") :=
  ⟨rfl, rfl, by decide⟩

/-- C6: whenever a stage operation throws (and the failure status write itself
    succeeds), the handler's durable trace is exactly the events recorded
    before the failure followed by one status record with step "failed" and
    the thrown error's message — so the remaining stages are aborted and no
    event (in particular no artifact) of any later stage follows — and the
    recorded error message is non-empty whenever the thrown message is. -/
theorem c6_failed_status_abort (tid : String) (cfg : Config) (o : Oracle)
    (m : String) (hm : m ≠ "")
    (h : (run_pipeline_async tid cfg o).2 = .error m) :
    post_model tid cfg o (.ok ()) =
      ((run_pipeline_async tid cfg o).1 ++
        [Event.status ⟨"failed", "Pipeline error", some m⟩], .errorResponse m) ∧
    Event.status ⟨"failed", "Pipeline error", some m⟩ ∈
      (post_model tid cfg o (.ok ())).1 ∧
    some m ≠ (some "" : Option String) := by
  rcases hrun : run_pipeline_async tid cfg o with ⟨evs, res⟩
  rw [hrun] at h
  have h' : res = .error m := h
  subst h'
  refine ⟨?_, ?_, by simpa using hm⟩
  · simp [post_model, hrun]
  · simp [post_model, hrun]

/-- Witness for C6: the validation CSV is missing, the prepare-input stage
    throws, and the handler records the failure and aborts. -/
theorem c6_failed_status_abort_witness :
    (post_model "t1" cfgNoChain oracleFailEx (.ok ()) =
      ((run_pipeline_async "t1" cfgNoChain oracleFailEx).1 ++
        [Event.status ⟨"failed", "Pipeline error",
          some "Validation CSV not found at iris_test_split.csv"⟩],
        .errorResponse "Validation CSV not found at iris_test_split.csv") ∧
    Event.status ⟨"failed", "Pipeline error",
      some "Validation CSV not found at iris_test_split.csv"⟩ ∈
      (post_model "t1" cfgNoChain oracleFailEx (.ok ())).1 ∧
    (some "Validation CSV not found at iris_test_split.csv" : Option String) ≠ some "") :=
  c6_failed_status_abort "t1" cfgNoChain oracleFailEx
    "Validation CSV not found at iris_test_split.csv" (by decide) rfl

/-- C5: for every run with both the chain endpoint and the signing key unset
    that returns a result, the result has no verifier contract address and no
    transaction hashes, and the final recorded status is "complete" (the
    deployment and registration stages were skipped, not failed). -/
theorem c5_chain_unset (tid : String) (cfg : Config) (o : Oracle)
    (evs : List Event) (r : RunResult)
    (hp : cfg.WEB3_HTTP_PROVIDER = none) (hk : cfg.WEB3_OPERATOR_KEY = none)
    (h : run_pipeline_async tid cfg o = (evs, .ok r)) :
    r.verifier_contract = none ∧ r.verifier_deploy_tx = none ∧ r.tx_hash = none ∧
    evs.getLast? = some (stEv "complete" "Pipeline finished") := by
  obtain ⟨hev, hvc, hdt, htx⟩ := run_ok_shape tid cfg o evs r h
  have hd : deployHappens cfg = false := by
    simp [deployHappens, hp, truthy_none]
  have ha : okAddress cfg o = none := by simp [okAddress, hd]
  refine ⟨?_, ?_, ?_, ?_⟩
  · rw [hvc, ha]
  · rw [hdt]
    simp [okDeployTx, hd]
  · rw [htx]
    simp [okTxHash, tailTxHash, ha, truthy_none]
  · rw [hev]
    simp [okEvents, tailEvents, List.getLast?_concat]

/-- Witness for C5: a fully successful run under `cfgNoChain`. -/
theorem c5_chain_unset_witness :
    cfgNoChain.WEB3_HTTP_PROVIDER = none ∧ cfgNoChain.WEB3_OPERATOR_KEY = none ∧
    (resC5Ex.verifier_contract = none ∧ resC5Ex.verifier_deploy_tx = none ∧
      resC5Ex.tx_hash = none ∧
      (okEvents cfgNoChain oracleOkEx).getLast? =
        some (stEv "complete" "Pipeline finished")) :=
  ⟨rfl, rfl,
    c5_chain_unset "t1" cfgNoChain oracleOkEx (okEvents cfgNoChain oracleOkEx) resC5Ex
      rfl rfl rfl⟩

/-- C3 counterexample: with a signing key and a registry address configured
    but no chain endpoint, the deploy-verifier stage is skipped by
    configuration, the run succeeds, and yet the ledger trace contains no
    status record whatsoever for the `verifier_deploy` stage — the deploy
    skip is not recorded (only the registration skip is). -/
theorem c3_deploy_skip_unrecorded :
    deployHappens cfgNoProviderEx = false ∧
    (run_pipeline_async "t1" cfgNoProviderEx oracleOkEx).2.isOk = true ∧
    noDeployStatus (run_pipeline_async "t1" cfgNoProviderEx oracleOkEx).1 = true :=
  ⟨rfl, rfl, by decide⟩

/-- C3 (amended): when the deployment stage is skipped because of
    configuration, the registration skip is recorded as an explicit status
    distinct from failure ("Skipping on-chain registration (no verifier
    deployment)"), but the deploy-verifier skip itself is not recorded: no
    ledger entry of the run has step `verifier_deploy`. -/
theorem c3_register_skip_recorded (tid : String) (cfg : Config) (o : Oracle)
    (evs : List Event) (r : RunResult)
    (hd : deployHappens cfg = false)
    (h : run_pipeline_async tid cfg o = (evs, .ok r)) :
    stEv "register" "Skipping on-chain registration (no verifier deployment)" ∈ evs ∧
    noDeployStatus evs = true := by
  obtain ⟨hev, -, -, -⟩ := run_ok_shape tid cfg o evs r h
  subst hev
  have ha : okAddress cfg o = none := by simp [okAddress, hd]
  have hsh : okEvents cfg o = tailEvents (okStagePart ++ []) none := by
    simp [okEvents, deployPart, hd, ha]
  rw [hsh]
  exact ⟨by decide, by decide⟩

/-- Witness for the amended C3. -/
theorem c3_register_skip_recorded_witness :
    deployHappens cfgNoProviderEx = false ∧
    (stEv "register" "Skipping on-chain registration (no verifier deployment)" ∈
        okEvents cfgNoProviderEx oracleOkEx ∧
      noDeployStatus (okEvents cfgNoProviderEx oracleOkEx) = true) :=
  ⟨rfl,
    c3_register_skip_recorded "t1" cfgNoProviderEx oracleOkEx
      (okEvents cfgNoProviderEx oracleOkEx) resC5Ex rfl rfl⟩

/-- C7 counterexample: a status query for a task ID that was never uploaded
    answers not-found but still creates the task's directory on disk
    (`get_status` calls `task_paths`, which runs `ensure_dir`), so the query
    does modify task state. -/
theorem c7_status_query_creates_dir :
    (get_status fsEmptyEx "t9").2 = .notFound ∧
    ["artifacts", "t9"] ∈ (get_status fsEmptyEx "t9").1.dirs ∧
    ["artifacts", "t9"] ∉ fsEmptyEx.dirs :=
  ⟨rfl, by decide, by decide⟩

/-- C7 (amended): a status query reads the latest ledger entry (the task's
    `status.json`) and touches no file content and deletes no directory, but
    it does run `ensure_dir` on the task base directory — so the task
    directory is created by any request that resolves the task's paths, not
    only by the first upload. -/
theorem c7_status_reads_only (fs : FS) (t : String) :
    (get_status fs t).1.files = fs.files ∧
    (get_status fs t).1.dirs = ensure_dir fs.dirs (joinPath APP_ROOT t) ∧
    (∀ d ∈ fs.dirs, d ∈ (get_status fs t).1.dirs) ∧
    rolePath (task_paths fs t).2 "status" = joinPath APP_ROOT t ++ ["status.json"] ∧
    (get_status fs t).2 =
      (match fs.files (resolveComponents [] (rolePath (task_paths fs t).2 "status")) with
        | none => StatusResponse.notFound
        | some c => StatusResponse.found c) := by
  refine ⟨?_, ?_, ?_, rfl, ?_⟩
  · simp only [get_status]
    split <;> rfl
  · simp only [get_status]
    split <;> rfl
  · intro d hd
    simp only [get_status]
    split <;> exact ensure_dir_mono _ _ d hd
  · simp only [get_status]
    split <;> rename_i heq <;>
      rw [show (task_paths fs t).1.files = fs.files from rfl] at heq <;>
      simp only [heq]

/-- C8 counterexample: path mappings of distinct task IDs can collide when an
    ID contains a path separator: task "a"'s model artifact path is the very
    path task "a/network.onnx"'s base directory resolves to. -/
theorem c8_id_collision :
    ("a" : String) ≠ "a/network.onnx" ∧
    ("model", ["artifacts", "a", "network.onnx"]) ∈ task_paths_map "a" ∧
    ("base", ["artifacts", "a", "network.onnx"]) ∈ task_paths_map "a/network.onnx" :=
  ⟨by decide, by decide, by decide⟩

/-- Every path in the mapping of a separator-free task ID has that ID as its
    second component. -/
theorem task_paths_map_snd (t : String) (h : splitSlash t = [t]) (role : String)
    (p : FsPath) (hp : (role, p) ∈ task_paths_map t) : p[1]? = some t := by
  have hb : joinPath APP_ROOT t = ["artifacts", t] := by
    simp [joinPath, APP_ROOT, h]
  have hall : ∀ q ∈ task_paths_map t, (q.2)[1]? = some t := by
    simp [task_paths_map, hb]
  exact hall (role, p) hp

/-- C8 (amended): resolving the Artifact Set is idempotent — the returned
    mapping is a pure function of the task ID alone (identical for any
    filesystem state and on repeated calls), a second resolve changes nothing,
    no file is touched and no existing directory removed — and the mappings of
    distinct task IDs containing no path separator share no path. IDs with a
    separator can collide (see the counterexample), and such IDs do reach the
    resolver: the upload handler takes the task ID from the form body
    (app.py 419) without restricting separators; only the URL-path routes
    exclude them. -/
theorem c8_resolve_idempotent_no_collision (fs : FS) (t1 t2 : String)
    (h1 : splitSlash t1 = [t1]) (h2 : splitSlash t2 = [t2]) (hne : t1 ≠ t2) :
    (task_paths fs t1).2 = task_paths_map t1 ∧
    (∀ fs' : FS, (task_paths fs' t1).2 = (task_paths fs t1).2) ∧
    task_paths (task_paths fs t1).1 t1 = task_paths fs t1 ∧
    (task_paths fs t1).1.files = fs.files ∧
    (∀ d ∈ fs.dirs, d ∈ (task_paths fs t1).1.dirs) ∧
    (∀ role1 role2 p, (role1, p) ∈ task_paths_map t1 →
      (role2, p) ∈ task_paths_map t2 → False) := by
  refine ⟨rfl, fun fs' => rfl, ?_, rfl, ?_, ?_⟩
  · unfold task_paths
    simp [ensure_dir_idem]
  · exact fun d hd => ensure_dir_mono _ _ d hd
  · intro r1 r2 p hp1 hp2
    have e1 := task_paths_map_snd t1 h1 r1 p hp1
    have e2 := task_paths_map_snd t2 h2 r2 p hp2
    rw [e1] at e2
    exact hne (Option.some.inj e2)

/-- Witness for the amended C8 at the separator-free IDs "a" and "b". -/
theorem c8_resolve_witness :
    (splitSlash "a" = ["a"] ∧ splitSlash "b" = ["b"] ∧ ("a" : String) ≠ "b") ∧
    ((task_paths fsEmptyEx "a").2 = task_paths_map "a" ∧
      (∀ fs' : FS, (task_paths fs' "a").2 = (task_paths fsEmptyEx "a").2) ∧
      task_paths (task_paths fsEmptyEx "a").1 "a" = task_paths fsEmptyEx "a" ∧
      (task_paths fsEmptyEx "a").1.files = fsEmptyEx.files ∧
      (∀ d ∈ fsEmptyEx.dirs, d ∈ (task_paths fsEmptyEx "a").1.dirs) ∧
      (∀ role1 role2 p, (role1, p) ∈ task_paths_map "a" →
        (role2, p) ∈ task_paths_map "b" → False)) :=
  ⟨⟨rfl, rfl, by decide⟩,
    c8_resolve_idempotent_no_collision fsEmptyEx "a" "b" rfl rfl (by decide)⟩

/-- Witness for the amended C7 at an empty filesystem and task ID "t7". -/
theorem c7_status_reads_only_witness :
    (get_status fsEmptyEx "t7").1.files = fsEmptyEx.files ∧
    (get_status fsEmptyEx "t7").1.dirs = ensure_dir fsEmptyEx.dirs (joinPath APP_ROOT "t7") ∧
    (∀ d ∈ fsEmptyEx.dirs, d ∈ (get_status fsEmptyEx "t7").1.dirs) ∧
    rolePath (task_paths fsEmptyEx "t7").2 "status" =
      joinPath APP_ROOT "t7" ++ ["status.json"] ∧
    (get_status fsEmptyEx "t7").2 =
      (match fsEmptyEx.files (resolveComponents []
          (rolePath (task_paths fsEmptyEx "t7").2 "status")) with
        | none => StatusResponse.notFound
        | some c => StatusResponse.found c) :=
  c7_status_reads_only fsEmptyEx "t7"
